import Mathlib

/-!
Shallow embedding of `include/boost/kernelalloc/kernelalloc.hpp`
(Boost.KernelAlloc): the `allocation` / `provider` interface pair and the
STL-compatible `allocator` adapter built on them.

Modelling conventions:
* `size_t` (the header's `size_type`) is a `w`-bit unsigned integer; values
  are `Nat` and arithmetic that the header performs in `size_type` is taken
  `% 2 ^ w` explicitly.
* Pointers (`void *`) are `Option Nat`: `none` is `nullptr`, `some a` is a
  non-null address.
* `error_code` is a `Nat`; `0` is the cleared (no-error) state, matching
  `error_code`'s `operator bool`.
* The pure-virtual methods of `allocation` (`size`, `map`, `unmap`) and of
  `provider` (`allocate`, `allocation`) have no body in the header; a
  concrete implementation is modelled as a structure of functions
  (`AllocationB`, `ProviderB`).  A batch virtual that mutates an array of
  `map_t` in place is modelled as a function from the descriptor list to the
  updated descriptor list together with the returned success count.
* A `std::shared_ptr<provider>` is modelled as `Option Nat`: `none` is the
  empty pointer and `some pid` a pointer identity; `shared_ptr` equality is
  pointer-identity equality.  An environment `env : Nat → ProviderB` gives
  the behaviour of the provider object behind each identity.
* The adapter methods `allocator::allocate` / `allocator::deallocate`
  additionally return the post-call adapter state and a trace of the
  virtual calls they issued (in order), so that claims of the form
  "calls the provider exactly once" are statable.
* Exceptions thrown by the adapter become `Except.error` values of
  `AllocError`, one constructor per `throw` site.
* The header was never compiled as-is; it contains token slips that any
  compiler rejects (`map(&m 1)` for `map(&m, 1)`, `*begin()` for `*begin`,
  `m->addr` for `m.addr` on a by-value `map_t`).  The embedding reads these
  as the evident intended calls.  Genuine logic (as opposed to token) slips
  are embedded exactly as written; see `allocation_unmap_container`.
-/

/-- `allocation::map_t`: a descriptor for one sub-range operation.
`addr` is the resulting local address (output), `offset`/`length` the byte
range inside the allocation (input), `ec` the per-entry error (output). -/
structure MapT where
  addr : Option Nat
  offset : Nat
  length : Nat
  ec : Nat
deriving DecidableEq, Repr

/-- `map_t()` : default-constructed descriptor (`addr = nullptr`,
`offset = 0`, `length = 0`, cleared error). -/
def MapT.default : MapT := { addr := none, offset := 0, length := 0, ec := 0 }

/-- `map_t(offset, length)` : descriptor for a given range, `addr = nullptr`,
cleared error. -/
def MapT.mk2 (offset length : Nat) : MapT :=
  { addr := none, offset := offset, length := length, ec := 0 }

/-- The behaviour of a concrete `allocation` implementation: its fixed
`size()` and the two batch virtuals `map(map_t *, size_type)` and
`unmap(map_t *, size_type)`.  Each batch virtual receives the descriptor
array and returns the updated array together with its `size_type` return
value (the count of successful entries). -/
structure AllocationB where
  size : Nat
  mapB : List MapT → List MapT × Nat
  unmapB : List MapT → List MapT × Nat

/-- The behaviour of a concrete `provider` implementation:
`allocate(error_code &ec, size_type bytes)` returns the final value of `ec`
together with the returned `shared_ptr<allocation>` (`none` = empty), and
`allocation(void *addr, map_t *map)` returns `none` on a lookup miss, or the
owning allocation together with the descriptor it wrote through `map`. -/
structure ProviderB where
  allocateB : Nat → Nat × Option AllocationB
  allocationForB : Nat → Option (AllocationB × MapT)

/-- The `allocator<T>` adapter: its only data member is
`std::shared_ptr<provider> _provider`, modelled as an optional provider
identity.  The index `s` plays the role of `sizeof(T)`. -/
structure Allocator (s : Nat) where
  providerRef : Option Nat
deriving DecidableEq, Repr

/-- One virtual call issued by the adapter, for the call trace. -/
inductive Event where
  | evAllocate : Nat → Event
  | evMap : List MapT → Event
  | evUnmap : List MapT → Event
  | evLookup : Nat → Event
deriving DecidableEq, Repr

/-- The adapter's failure channel: one constructor per `throw` site of
`allocator::allocate` / `allocator::deallocate`. -/
inductive AllocError where
  | unsetProvider
  | sizeOverflow
  | systemError : Nat → AllocError
  | mapFailed
  | addressNotFound
  | unmapFailed : Nat → AllocError
deriving DecidableEq, Repr

/-- The whole-allocation descriptor `map_t m(0, size())` built by
`allocation::map()`. -/
def whole_desc (a : AllocationB) : MapT := MapT.mk2 0 a.size

/-- `allocation::map()` (zero-argument convenience): builds
`map_t m(0, size())`, calls the batch virtual on that single descriptor and
returns the (updated) descriptor. -/
def allocation_map_whole (a : AllocationB) : MapT :=
  ((a.mapB [whole_desc a]).1).headD (whole_desc a)

/-- `allocation::map(T &&begin, T &&end)` (iterator-pair convenience):
calls the batch virtual once per element, accumulating the returned counts;
the elements are updated one at a time. -/
def allocation_map_range (a : AllocationB) : List MapT → List MapT × Nat
  | [] => ([], 0)
  | m :: rest =>
    let one := a.mapB [m]
    let rec' := allocation_map_range a rest
    (one.1 ++ rec'.1, one.2 + rec'.2)

/-- `allocation::unmap(T &&begin, T &&end)` (iterator-pair convenience):
calls the batch `unmap` virtual once per element, accumulating the counts. -/
def allocation_unmap_range (a : AllocationB) : List MapT → List MapT × Nat
  | [] => ([], 0)
  | m :: rest =>
    let one := a.unmapB [m]
    let rec' := allocation_unmap_range a rest
    (one.1 ++ rec'.1, one.2 + rec'.2)

/-- `allocation::map(T &&cont)` (container convenience): forwards to the
iterator-pair `map` overload over `begin(cont)`/`end(cont)`. -/
def allocation_map_container (a : AllocationB) (c : List MapT) : List MapT × Nat :=
  allocation_map_range a c

/-- `allocation::unmap(T &&cont)` (container convenience), embedded exactly
as the header writes it: its body is
`return map(std::begin(std::forward<T>(cont)), std::end(std::forward<T>(cont)));`
— it forwards to the iterator-pair `map` overload, not to `unmap`. -/
def allocation_unmap_container (a : AllocationB) (c : List MapT) : List MapT × Nat :=
  allocation_map_range a c

/-- `allocation::unmap(const std::vector<map_t> &c)` (vector convenience):
forwards to the batch virtual `unmap(c.data(), c.size())` directly. -/
def allocation_unmap_vector (a : AllocationB) (c : List MapT) : List MapT × Nat :=
  a.unmapB c

/-- `allocator<T>::max_size()`: `((size_type)-1)/sizeof(T)`, i.e.
`(2 ^ w - 1) / s` where `w` is the bit width of `size_type` and `s` is
`sizeof(T)`. -/
def max_size (w s : Nat) : Nat := (2 ^ w - 1) / s

/-- `allocator<T>::max_size()` as the member function: it reads no adapter
state. -/
def allocator_max_size (w : Nat) {s : Nat} (_a : Allocator s) : Nat := max_size w s

/-- `size_type bytes = n * sizeof(T)`: the byte count computed inside
`allocator::allocate`, in `w`-bit `size_type` arithmetic. -/
def alloc_bytes (w s n : Nat) : Nat := (n * s) % 2 ^ w

/-- `operator==(const allocator<A> &a, const allocator<B> &b)`:
`a._provider == b._provider` (shared-pointer identity comparison). -/
def alloc_eq {s t : Nat} (a : Allocator s) (b : Allocator t) : Bool :=
  a.providerRef == b.providerRef

/-- `operator!=(const allocator<A> &a, const allocator<B> &b)`:
`a._provider != b._provider`. -/
def alloc_ne {s t : Nat} (a : Allocator s) (b : Allocator t) : Bool :=
  a.providerRef != b.providerRef

/-- `template<class U> allocator(const allocator<U> &o) : _provider(o._provider)`:
the rebind conversion copies the provider reference. -/
def alloc_rebind {s : Nat} (t : Nat) (a : Allocator s) : Allocator t :=
  ⟨a.providerRef⟩

/-- `allocator<T>::allocate(n)`.  Returns the post-call adapter state, the
result (`Except.error` for each `throw` site, `Except.ok` with the returned
address otherwise), and the trace of virtual calls issued:

* `if(!_provider) throw std::invalid_argument("Unset provider");`
* `if(n>max_size()) throw std::bad_alloc();`
* `size_type bytes=n*sizeof(T); auto a(_provider->allocate(ec, bytes));`
* `if(ec || !a) throw std::system_error(ec);`
* `auto m(a->map());  if(!m.addr) throw std::bad_alloc();`
* `return static_cast<pointer>(m.addr);` -/
def allocator_allocate (w : Nat) (env : Nat → ProviderB) {s : Nat}
    (al : Allocator s) (n : Nat) :
    Allocator s × Except AllocError Nat × List Event :=
  match al.providerRef with
  | none => (al, Except.error AllocError.unsetProvider, [])
  | some pid =>
    if n > max_size w s then (al, Except.error AllocError.sizeOverflow, [])
    else
      match (env pid).allocateB (alloc_bytes w s n) with
      | (ec, none) =>
        (al, Except.error (AllocError.systemError ec),
          [Event.evAllocate (alloc_bytes w s n)])
      | (ec, some a) =>
        if ec ≠ 0 then
          (al, Except.error (AllocError.systemError ec),
            [Event.evAllocate (alloc_bytes w s n)])
        else
          match (allocation_map_whole a).addr with
          | none =>
            (al, Except.error AllocError.mapFailed,
              [Event.evAllocate (alloc_bytes w s n), Event.evMap [whole_desc a]])
          | some q =>
            (al, Except.ok q,
              [Event.evAllocate (alloc_bytes w s n), Event.evMap [whole_desc a]])

/-- `allocator<T>::deallocate(p, n)` (the header ignores `n`).  Returns the
post-call adapter state, the result, and the trace of virtual calls:

* `if(!_provider) throw std::invalid_argument("Unset provider");`
* `allocation::map_t m; auto a(_provider->allocation(p, &m));`
* `if(!a) throw std::invalid_argument("Address not found");`
* `a->unmap(m);`
* `if(m.ec) throw std::system_error(m.ec, "Failed to unmap allocation");` -/
def allocator_deallocate (env : Nat → ProviderB) {s : Nat}
    (al : Allocator s) (p : Nat) (_n : Nat) :
    Allocator s × Except AllocError Unit × List Event :=
  match al.providerRef with
  | none => (al, Except.error AllocError.unsetProvider, [])
  | some pid =>
    match (env pid).allocationForB p with
    | none => (al, Except.error AllocError.addressNotFound, [Event.evLookup p])
    | some (a, m) =>
      let m' := ((a.unmapB [m]).1).headD m
      if m'.ec ≠ 0 then
        (al, Except.error (AllocError.unmapFailed m'.ec),
          [Event.evLookup p, Event.evUnmap [m]])
      else
        (al, Except.ok (), [Event.evLookup p, Event.evUnmap [m]])

/-! ## Concrete provider/allocation behaviours used as evaluation fixtures -/

/-- A concrete allocation behaviour: 800 bytes; its batch `map` writes the
local address `4096 + offset` into each descriptor and clears the error, its
batch `unmap` nulls each descriptor's address; both return the full count. -/
def wAllocation : AllocationB where
  size := 800
  mapB := fun l => (l.map (fun m => { m with addr := some (4096 + m.offset), ec := 0 }), l.length)
  unmapB := fun l => (l.map (fun m => { m with addr := none, ec := 0 }), l.length)

/-- A concrete provider behaviour: every reservation succeeds with
`wAllocation` and a cleared error; reverse lookup succeeds exactly at the
address `4096`, filling the whole-allocation descriptor. -/
def wProvider : ProviderB where
  allocateB := fun _ => (0, some wAllocation)
  allocationForB := fun addr =>
    if addr = 4096 then
      some (wAllocation, { addr := some 4096, offset := 0, length := 800, ec := 0 })
    else none

/-- A provider environment in which every provider identity behaves as
`wProvider`. -/
def wEnv : Nat → ProviderB := fun _ => wProvider

/-- A descriptor for a previously mapped 16-byte range at local address 64. -/
def exDesc : MapT := { addr := some 64, offset := 0, length := 16, ec := 0 }

/-! ## Shared helper lemmas -/

/-- When `n ≤ max_size w s`, the `size_type` product `n * s` does not wrap
modulo `2 ^ w`. -/
lemma alloc_bytes_eq_of_le (w s n : Nat) (hn : n ≤ max_size w s) :
    alloc_bytes w s n = n * s := by
  have h1 : n * s ≤ max_size w s * s := Nat.mul_le_mul_right s hn
  have h2 : max_size w s * s ≤ 2 ^ w - 1 := Nat.div_mul_le_self _ s
  have h3 : 0 < 2 ^ w := Nat.pow_pos (by norm_num)
  unfold alloc_bytes
  exact Nat.mod_eq_of_lt (by omega)

/-- `allocator::allocate` never assigns `_provider`: its post-call adapter
state is its pre-call adapter state on every path. -/
lemma allocator_allocate_fst (w : Nat) (env : Nat → ProviderB) {s : Nat}
    (al : Allocator s) (n : Nat) : (allocator_allocate w env al n).1 = al := by
  unfold allocator_allocate
  split
  · rfl
  · split
    · rfl
    · split
      · rfl
      · split
        · rfl
        · split <;> rfl

/-- `allocator::deallocate` never assigns `_provider`: its post-call adapter
state is its pre-call adapter state on every path. -/
lemma allocator_deallocate_fst (env : Nat → ProviderB) {s : Nat}
    (al : Allocator s) (p n : Nat) : (allocator_deallocate env al p n).1 = al := by
  unfold allocator_deallocate
  split
  · rfl
  · split
    · rfl
    · dsimp only
      split <;> rfl

/-! ## Claims -/

/-- C10: for every element count `n` with `n ≤ max_size()`, the byte count
`bytes = n * sizeof(T)` computed by `allocator::allocate` in `w`-bit
`size_type` arithmetic does not wrap modulo `2 ^ w`: it equals the exact
mathematical product `n * sizeof(T)`, so the provider is always asked for
the true requested byte size. -/
theorem allocate_bytes_exact (w s n : Nat) (hn : n ≤ max_size w s) :
    alloc_bytes w s n = n * s :=
  alloc_bytes_eq_of_le w s n hn

/-- Witness for `allocate_bytes_exact` at `w = 16`, `sizeof(T) = 8`,
`n = 100`. -/
theorem allocate_bytes_exact_witness :
    100 ≤ max_size 16 8 ∧ alloc_bytes 16 8 100 = 100 * 8 :=
  ⟨by decide, allocate_bytes_exact 16 8 100 (by decide)⟩

/-- C5: for every pair of adapter instances (of possibly different element
sizes), `operator==` returns `true` iff both reference the same provider
instance or both are unbound, and `operator!=` is its exact negation. -/
theorem alloc_eq_iff_same_provider {s t : Nat} (a : Allocator s) (b : Allocator t) :
    (alloc_eq a b = true ↔
      ((∃ pid, a.providerRef = some pid ∧ b.providerRef = some pid) ∨
       (a.providerRef = none ∧ b.providerRef = none))) ∧
    alloc_ne a b = !alloc_eq a b := by
  constructor
  · have h : alloc_eq a b = true ↔ a.providerRef = b.providerRef := by
      simp [alloc_eq]
    rw [h]
    cases ha : a.providerRef <;> cases hb : b.providerRef <;> simp
    exact eq_comm
  · rfl

/-- C7: `allocator<T>::max_size()` returns `(2 ^ w - 1) / sizeof(T)`: the
largest element count whose byte size fits the `w`-bit `size_type`; the
value is a pure constant of `T`, independent of adapter state. -/
theorem allocator_max_size_spec (w s : Nat) (hs : 0 < s) :
    (∀ a : Allocator s, allocator_max_size w a = (2 ^ w - 1) / s) ∧
    (∀ a : Allocator s, allocator_max_size w a * s ≤ 2 ^ w - 1) ∧
    (∀ (a : Allocator s) (m : Nat), m * s ≤ 2 ^ w - 1 → m ≤ allocator_max_size w a) ∧
    (∀ a b : Allocator s, allocator_max_size w a = allocator_max_size w b) := by
  refine ⟨fun _ => rfl, fun _ => Nat.div_mul_le_self _ s, ?_, fun _ _ => rfl⟩
  intro _ m hm
  exact (Nat.le_div_iff_mul_le hs).mpr hm

/-- Witness for `allocator_max_size_spec` at `w = 8`, `sizeof(T) = 2`, on a
bound adapter: `max_size()` evaluates to `127 = (2 ^ 8 - 1) / 2`. -/
theorem allocator_max_size_spec_witness :
    allocator_max_size 8 (⟨some 0⟩ : Allocator 2) = 127 :=
  Eq.trans ((allocator_max_size_spec 8 2 (by decide)).1 ⟨some 0⟩) (by decide)

/-- C8: the rebind conversion `allocator<U>(const allocator<T> &)` copies
the provider reference, so the rebound adapter is bound to the same provider
instance and compares equal to the original. -/
theorem alloc_rebind_preserves_provider {s : Nat} (t : Nat) (a : Allocator s) :
    (alloc_rebind t a).providerRef = a.providerRef ∧
    alloc_eq a (alloc_rebind t a) = true := by
  refine ⟨rfl, ?_⟩
  simp [alloc_eq, alloc_rebind]

/-- C3 (evaluation at the failing input): an allocation behaviour whose
batch `map` and batch `unmap` differ observably.  Its batch `map` writes
`4097` into each descriptor's address; its batch `unmap` nulls each
descriptor's address. -/
def exAllocation : AllocationB where
  size := 4096
  mapB := fun l => (l.map (fun m => { m with addr := some 4097, ec := 0 }), l.length)
  unmapB := fun l => (l.map (fun m => { m with addr := none, ec := 0 }), l.length)

/-- C3: the container convenience overload `allocation::unmap(T &&cont)`
does NOT perform the batch unmap: its body forwards to the `map`
iterator-pair overload.  On `exAllocation` with the single mapped
descriptor `exDesc`, it produces exactly what the `map` container overload
produces (a freshly mapped address) and differs from both the per-element
`unmap` reduction and the direct batch `unmap` (which would null the
address). -/
theorem unmap_container_performs_map :
    allocation_unmap_container exAllocation [exDesc] =
      allocation_map_container exAllocation [exDesc] ∧
    allocation_unmap_container exAllocation [exDesc] ≠
      allocation_unmap_range exAllocation [exDesc] ∧
    allocation_unmap_container exAllocation [exDesc] ≠
      allocation_unmap_vector exAllocation [exDesc] :=
  ⟨rfl, by decide, by decide⟩

/-- C6: the zero-argument convenience `allocation::map()` is the canonical
batch map applied to the single whole-allocation descriptor (offset `0`,
length `size()`), and returns that descriptor.  The hypothesis records that
the batch virtual updates its one descriptor in place (the updated array
has the same length `1`). -/
theorem map_whole_is_batch_on_whole_desc (a : AllocationB)
    (h : ((a.mapB [whole_desc a]).1).length = 1) :
    whole_desc a = MapT.mk2 0 a.size ∧
    [allocation_map_whole a] = (a.mapB [whole_desc a]).1 := by
  refine ⟨rfl, ?_⟩
  obtain ⟨x, hx⟩ := List.length_eq_one.mp h
  simp [allocation_map_whole, hx]

/-- Witness for `map_whole_is_batch_on_whole_desc` on the concrete
behaviour `wAllocation`. -/
theorem map_whole_is_batch_witness :
    ((wAllocation.mapB [whole_desc wAllocation]).1).length = 1 ∧
    [allocation_map_whole wAllocation] = (wAllocation.mapB [whole_desc wAllocation]).1 :=
  ⟨rfl, (map_whole_is_batch_on_whole_desc wAllocation rfl).2⟩

/-- C1: for every adapter bound to a provider and every `n ≤ max_size()`,
`allocator::allocate(n)` computes `bytes = n * sizeof(T)` (the exact
product), issues exactly one `Provider.allocate` call for that many bytes,
and then — in the four possible provider/map outcomes —

* provider returns no allocation: fails (`system_error`), no map issued;
* provider sets an error: fails (`system_error`), no map issued;
* provider succeeds but the whole-allocation map leaves the address null:
  fails (`bad_alloc`), after exactly one map of the whole allocation;
* provider succeeds and the map produces address `q`: returns `q`, after
  exactly one map of the whole allocation.

The trace lists every virtual call issued, in order, so the stated trace
equalities are precisely the "exactly once" counts. -/
theorem allocator_allocate_spec (w : Nat) (env : Nat → ProviderB) {s : Nat}
    (al : Allocator s) (n pid : Nat)
    (hb : al.providerRef = some pid) (hn : n ≤ max_size w s) :
    (∀ ec, (env pid).allocateB (n * s) = (ec, none) →
      allocator_allocate w env al n =
        (al, Except.error (AllocError.systemError ec), [Event.evAllocate (n * s)])) ∧
    (∀ ec a, (env pid).allocateB (n * s) = (ec, some a) → ec ≠ 0 →
      allocator_allocate w env al n =
        (al, Except.error (AllocError.systemError ec), [Event.evAllocate (n * s)])) ∧
    (∀ a, (env pid).allocateB (n * s) = (0, some a) →
        (allocation_map_whole a).addr = none →
      allocator_allocate w env al n =
        (al, Except.error AllocError.mapFailed,
          [Event.evAllocate (n * s), Event.evMap [whole_desc a]])) ∧
    (∀ a q, (env pid).allocateB (n * s) = (0, some a) →
        (allocation_map_whole a).addr = some q →
      allocator_allocate w env al n =
        (al, Except.ok q, [Event.evAllocate (n * s), Event.evMap [whole_desc a]])) := by
  have hbytes : alloc_bytes w s n = n * s := alloc_bytes_eq_of_le w s n hn
  have hguard : ¬ (n > max_size w s) := Nat.not_lt.mpr hn
  refine ⟨?_, ?_, ?_, ?_⟩
  · intro ec hA
    simp [allocator_allocate, hb, hguard, hbytes, hA]
  · intro ec a hA hec
    simp [allocator_allocate, hb, hguard, hbytes, hA, hec]
  · intro a hA hm
    simp [allocator_allocate, hb, hguard, hbytes, hA, hm]
  · intro a q hA hm
    simp [allocator_allocate, hb, hguard, hbytes, hA, hm]

/-- Witness for `allocator_allocate_spec`: a bound adapter over `wEnv` with
`sizeof(T) = 8` and `n = 100` requests `800` bytes once, maps the whole
returned allocation once and returns the mapped address `4096`. -/
theorem allocator_allocate_spec_witness :
    allocator_allocate 16 wEnv (⟨some 0⟩ : Allocator 8) 100 =
      (⟨some 0⟩, Except.ok 4096,
        [Event.evAllocate 800, Event.evMap [MapT.mk2 0 800]]) :=
  (allocator_allocate_spec 16 wEnv (⟨some 0⟩ : Allocator 8) 100 0 rfl
    (by decide)).2.2.2 wAllocation 4096 rfl rfl

/-- C2: for every adapter bound to a provider and every pointer `p`,
`allocator::deallocate(p, n)` performs the reverse lookup
(`Provider.allocation`) exactly once; on a lookup miss it fails with
"Address not found" and issues no unmap; on a hit it issues exactly one
unmap of exactly the descriptor the lookup filled in, succeeding when the
unmapped descriptor's error is clear and failing with that error
otherwise.  The trace lists every virtual call issued, in order. -/
theorem allocator_deallocate_spec (env : Nat → ProviderB) {s : Nat}
    (al : Allocator s) (p n pid : Nat) (hb : al.providerRef = some pid) :
    ((env pid).allocationForB p = none →
      allocator_deallocate env al p n =
        (al, Except.error AllocError.addressNotFound, [Event.evLookup p])) ∧
    (∀ a m, (env pid).allocationForB p = some (a, m) →
      ((((a.unmapB [m]).1).headD m).ec = 0 →
        allocator_deallocate env al p n =
          (al, Except.ok (), [Event.evLookup p, Event.evUnmap [m]])) ∧
      (∀ e, (((a.unmapB [m]).1).headD m).ec = e → e ≠ 0 →
        allocator_deallocate env al p n =
          (al, Except.error (AllocError.unmapFailed e),
            [Event.evLookup p, Event.evUnmap [m]]))) := by
  refine ⟨?_, ?_⟩
  · intro hL
    simp [allocator_deallocate, hb, hL]
  · intro a m hL
    refine ⟨?_, ?_⟩
    · intro hec
      simp only [allocator_deallocate, hb, hL]
      rw [hec]
      simp
    · intro e he hne
      simp only [allocator_deallocate, hb, hL]
      rw [he, if_pos hne]

/-- Witness for `allocator_deallocate_spec`: deallocating the previously
mapped address `4096` through `wEnv` looks the address up once, unmaps the
looked-up whole-allocation range once and succeeds. -/
theorem allocator_deallocate_spec_witness :
    allocator_deallocate wEnv (⟨some 0⟩ : Allocator 8) 4096 100 =
      (⟨some 0⟩, Except.ok (),
        [Event.evLookup 4096,
         Event.evUnmap [{ addr := some 4096, offset := 0, length := 800, ec := 0 }]]) :=
  ((allocator_deallocate_spec wEnv (⟨some 0⟩ : Allocator 8) 4096 100 0 rfl).2
    wAllocation { addr := some 4096, offset := 0, length := 800, ec := 0 } rfl).1 rfl

/-- C4 counterexample: an UNBOUND adapter with `n = 70000 > max_size() = 65535`
(at `w = 16`, `sizeof(T) = 1`) does not fail with the size-overflow error:
`allocator::allocate` checks `!_provider` first and throws
`invalid_argument("Unset provider")`, a distinct error. -/
theorem allocate_overflow_unbound_cex :
    (allocator_allocate 16 wEnv (⟨none⟩ : Allocator 1) 70000).2.1 =
      Except.error AllocError.unsetProvider ∧
    AllocError.unsetProvider ≠ AllocError.sizeOverflow :=
  ⟨rfl, by decide⟩

/-- C4 (amended to adapters bound to a provider): for every bound adapter
and every `n > max_size()`, `allocator::allocate(n)` fails with the
size-overflow error (`bad_alloc`) and issues no virtual call at all — in
particular the provider's `allocate` is never contacted. -/
theorem allocate_overflow_spec (w : Nat) (env : Nat → ProviderB) {s : Nat}
    (al : Allocator s) (n pid : Nat)
    (hb : al.providerRef = some pid) (hn : max_size w s < n) :
    allocator_allocate w env al n =
      (al, Except.error AllocError.sizeOverflow, []) := by
  simp [allocator_allocate, hb, hn]

/-- Witness for `allocate_overflow_spec`: a bound adapter at `w = 16`,
`sizeof(T) = 1`, `n = 70000 > 65535`. -/
theorem allocate_overflow_spec_witness :
    allocator_allocate 16 wEnv (⟨some 0⟩ : Allocator 1) 70000 =
      (⟨some 0⟩, Except.error AllocError.sizeOverflow, []) :=
  allocate_overflow_spec 16 wEnv (⟨some 0⟩ : Allocator 1) 70000 0 rfl (by decide)

/-- C9: whenever `allocator::allocate` or `allocator::deallocate` fails,
the adapter's bound-provider state is unchanged: the post-call adapter
state equals the pre-call adapter state (neither method ever assigns
`_provider`; the provider behaviours live in the immutable environment
`env`, which the adapter cannot alter). -/
theorem adapter_state_unchanged_on_failure (w : Nat) (env : Nat → ProviderB)
    {s : Nat} (al : Allocator s) (n p m : Nat) :
    (∀ e, (allocator_allocate w env al n).2.1 = Except.error e →
      (allocator_allocate w env al n).1 = al) ∧
    (∀ e, (allocator_deallocate env al p m).2.1 = Except.error e →
      (allocator_deallocate env al p m).1 = al) :=
  ⟨fun _ _ => allocator_allocate_fst w env al n,
   fun _ _ => allocator_deallocate_fst env al p m⟩

/-- Witness for `adapter_state_unchanged_on_failure`: an unbound adapter's
failing `allocate(1)` leaves its (null) provider reference unchanged. -/
theorem adapter_state_unchanged_witness :
    (allocator_allocate 16 wEnv (⟨none⟩ : Allocator 1) 1).1 = (⟨none⟩ : Allocator 1) :=
  (adapter_state_unchanged_on_failure 16 wEnv (⟨none⟩ : Allocator 1) 1 0 0).1
    AllocError.unsetProvider rfl
